import Mathlib

/-!
# unifi-led: the controller client of `src/unifi-led.js`

A shallow embedding of the class `UnifiLED`.  Every method of the class is a
promise chain around one `axios(options)` call.  The embedding makes the
controller an explicit deterministic state machine, threads a `World` (client
fields, controller state, interaction trace) through every call, and settles a
promise either to a value (`Except.ok`) or to a thrown error (`Except.error`).
The recursive replay of an operation after a re-login is bounded by a fuel
argument that counts invocations of the operation; a run that exhausts its fuel
yields `none` together with the world reached so far.

`console.log` / `console.error` lines, the `_debug` flag and the https agent
have no influence on control flow or results and are left out.
-/

namespace UnifiLed

/-! ## JavaScript values -/

/-- JavaScript values that reach this program: what `JSON.parse` can produce for
a response body, and `undefined`.  Numbers are the finite numbers (a JSON body
cannot contain `NaN` or an infinity). -/
inductive JsVal where
  | undefined
  | null
  | bool (b : Bool)
  | num (n : ℚ)
  | str (s : String)
  | arr (items : List JsVal)
  | obj (props : List (String × JsVal))

/-- Conversions between numbers and strings of the JavaScript runtime, which the
program reaches only through `==` and string `+`, kept abstract; neither can
throw.  `stringToNumber s` is `ToNumber(s)` when that is a finite number and `none`
otherwise (`NaN` and the infinities are equal to no finite number). -/
structure JsRuntime where
  stringToNumber : String → Option ℚ
  numberToString : ℚ → String

/-- Errors that can be thrown inside the promise chains: the `AxiosError` of a
rejected request (`status` is `err.response.status`, `none` when `err.response`
is undefined) and the `TypeError` of a property read on `undefined`/`null`. -/
inductive JsErr where
  | axios (status : Option Nat)
  | typeError
  deriving DecidableEq, Repr

/-- Property read `v[key]` / `v.key` for a key that is neither an index, `length`
nor a prototype member (the four keys read by the program are `access_token`,
`result`, `DeviceStatus.output`, `DeviceStatus.led`). -/
def getProp : JsVal → String → Except JsErr JsVal
  | .undefined, _ => .error .typeError
  | .null, _ => .error .typeError
  | .obj props, key => .ok ((props.lookup key).getD .undefined)
  | _, _ => .ok .undefined

mutual
/-- The string a value converts to, as in `'Bearer ' + v`, or `none` when the
conversion throws a `TypeError`.  A parsed object converts through
`Object.prototype.toString` unless it has an own member `toString`, which, not
being callable, leaves no conversion and makes it throw; an array converts through
`join`. -/
def toStr (rt : JsRuntime) : JsVal → Option String
  | .undefined => some "undefined"
  | .null => some "null"
  | .bool b => some (if b then "true" else "false")
  | .num n => some (rt.numberToString n)
  | .str s => some s
  | .arr items => (itemStrs rt items).map (fun parts => ",".intercalate parts)
  | .obj props => if (props.lookup "toString").isSome then none else some "[object Object]"
/-- The strings `Array.prototype.join` puts between the commas: empty for
`undefined` and `null`, the conversion of the item otherwise. -/
def itemStrs (rt : JsRuntime) : List JsVal → Option (List String)
  | [] => some []
  | .undefined :: rest => (itemStrs rt rest).map (fun parts => "" :: parts)
  | .null :: rest => (itemStrs rt rest).map (fun parts => "" :: parts)
  | item :: rest =>
    match toStr rt item with
    | some s => (itemStrs rt rest).map (fun parts => s :: parts)
    | none => none
end

/-- Loose equality `v == n` against a number `n` (ECMAScript IsLooselyEqual), or
`none` when it throws a `TypeError`: an object or array is first converted to a
primitive, which is its string. -/
def looseEqNum (rt : JsRuntime) (v : JsVal) (n : ℚ) : Option Bool :=
  match v with
  | .undefined => some false
  | .null => some false
  | .bool b => some (decide ((if b then (1 : ℚ) else 0) = n))
  | .num m => some (decide (m = n))
  | .str s => some (decide (rt.stringToNumber s = some n))
  | .arr items =>
    (toStr rt (.arr items)).map (fun s => decide (rt.stringToNumber s = some n))
  | .obj props => (toStr rt (.obj props)).map (fun _ => false)

/-- Loose equality `v == s` against a string `s` (ECMAScript IsLooselyEqual), or
`none` when it throws a `TypeError`. -/
def looseEqStr (rt : JsRuntime) (v : JsVal) (s : String) : Option Bool :=
  match v with
  | .undefined => some false
  | .null => some false
  | .bool b => some (decide (rt.stringToNumber s = some (if b then (1 : ℚ) else 0)))
  | .num m => some (decide (rt.stringToNumber s = some m))
  | .str t => some (decide (t = s))
  | .arr items => (toStr rt (.arr items)).map (fun t => decide (t = s))
  | .obj props => (toStr rt (.obj props)).map (fun t => decide (t = s))

/-- The evaluation of `err.response.status` in a catch handler. -/
def errResponseStatus : JsErr → Except JsErr Nat
  | .axios (some status) => .ok status
  | .axios none => .error .typeError
  | .typeError => .error .typeError

/-! ## Requests, the controller and the world -/

/-- The object `this._headers`. -/
structure Headers where
  contentType : String
  accept : String
  authorization : String
  deriving DecidableEq, Repr

/-- The `data` member of an axios options object. -/
inductive RequestData where
  | credentials (username password : String)
  | command (command : String) (value : ℚ)
  deriving DecidableEq

/-- An axios options object (`httpsAgent` left out). -/
structure Request where
  url : String
  method : String
  headers : Option Headers
  data : Option RequestData
  deriving DecidableEq

/-- What comes back for one request: an HTTP response or no response at all. -/
inductive HttpOutcome where
  | response (status : Nat) (data : JsVal)
  | noResponse

/-- The controller: a deterministic state machine answering requests. -/
abbrev Controller (σ : Type) := σ → Request → HttpOutcome × σ

/-- The fields of a `UnifiLED` instance. -/
structure UnifiLED where
  baseUrl : String
  username : String
  password : String
  accessToken : String
  headers : Headers
  deriving DecidableEq

/-- Observable steps of a run. -/
inductive Event where
  | request (options : Request)
  | login
  | setAuthorization (value : String)
  deriving DecidableEq

/-- Client fields, controller state and the trace of the run so far. -/
structure World (σ : Type) where
  client : UnifiLED
  controller : σ
  trace : List Event

/-- A settled promise, or `none` when the fuel ran out before it settled. -/
abbrev Run (σ : Type) := Option (Except JsErr JsVal) × World σ

/-- The call `axios(options)`: the request is issued, and the promise is fulfilled
with the response (here: its `data`) for a 2xx status and rejected otherwise
(axios default `validateStatus`). -/
def axios {σ : Type} (ctl : Controller σ) (options : Request) (w : World σ) :
    Except JsErr JsVal × World σ :=
  let w1 : World σ :=
    { w with controller := (ctl w.controller options).2,
             trace := w.trace ++ [Event.request options] }
  match (ctl w.controller options).1 with
  | .response status data =>
    if 200 ≤ status ∧ status < 300 then (.ok data, w1) else (.error (.axios (some status)), w1)
  | .noResponse => (.error (.axios none), w1)

/-- Field initialisation of the constructor, lines 14-26
(`port` defaults to 20443). -/
def UnifiLED.new (ip : String) (port : Option Nat) (username password : String) : UnifiLED :=
  let accessToken := ""
  { baseUrl := "https://" ++ ip ++ ":" ++ toString (port.getD 20443),
    username := username,
    password := password,
    accessToken := accessToken,
    headers :=
      { contentType := "application/json", accept := "*/*",
        authorization := "Bearer " ++ accessToken } }

/-- The assignment `this._headers.Authorization = value`. -/
def UnifiLED.withAuthorization (c : UnifiLED) (value : String) : UnifiLED :=
  { c with headers := { c.headers with authorization := value } }

/-- The options object built by `_login`. -/
def loginOptions (c : UnifiLED) : Request :=
  { url := c.baseUrl ++ "/v1/login", method := "POST", headers := none,
    data := some (.credentials c.username c.password) }

/-- Method `_login`, lines 39-62.  Whatever is thrown in the `then` handler (the
read of `res.data.access_token`, the conversion of the token to a string) is
caught by the `catch` handler, which returns `false`; the assignment to the header
has then not taken place. -/
def UnifiLED._login {σ : Type} (rt : JsRuntime) (ctl : Controller σ) (w : World σ) :
    Bool × World σ :=
  let r := axios ctl (loginOptions w.client) { w with trace := w.trace ++ [Event.login] }
  match r.1 with
  | .ok data =>
    match getProp data "access_token" with
    | .ok token =>
      match toStr rt token with
      | some text =>
        let value := "Bearer " ++ text
        (true,
          { r.2 with
              client := r.2.client.withAuthorization value,
              trace := r.2.trace ++ [Event.setAuthorization value] })
      | none => (false, r.2)
    | .error _ => (false, r.2)
  | .error _ => (false, r.2)

/-- The asynchronous constructor: field initialisation followed by
`await this._login()`, starting from controller state `c0`. -/
def UnifiLED.construct {σ : Type} (rt : JsRuntime) (ctl : Controller σ) (c0 : σ)
    (ip : String) (port : Option Nat) (username password : String) : World σ :=
  (UnifiLED._login rt ctl
    { client := UnifiLED.new ip port username password, controller := c0, trace := [] }).2

/-- Method `getDevices`, lines 68-93. -/
def UnifiLED.getDevices {σ : Type} (rt : JsRuntime) (ctl : Controller σ) :
    Nat → World σ → Run σ
  | 0, w => (none, w)
  | fuel + 1, w =>
    let options : Request :=
      { url := w.client.baseUrl ++ "/v1/devices", method := "GET",
        headers := some w.client.headers, data := none }
    let r := axios ctl options w
    match r.1 with
    | .ok data => (some (.ok data), r.2)
    | .error err =>
      match errResponseStatus err with
      | .error thrown => (some (.error thrown), r.2)
      | .ok status =>
        if status = 403 then
          let l := UnifiLED._login rt ctl r.2
          if l.1 then UnifiLED.getDevices rt ctl fuel l.2
          else (some (.ok .undefined), l.2)
        else (some (.ok .undefined), r.2)

/-- Method `getGroups`, lines 99-124. -/
def UnifiLED.getGroups {σ : Type} (rt : JsRuntime) (ctl : Controller σ) :
    Nat → World σ → Run σ
  | 0, w => (none, w)
  | fuel + 1, w =>
    let options : Request :=
      { url := w.client.baseUrl ++ "/v1/groups", method := "GET",
        headers := some w.client.headers, data := none }
    let r := axios ctl options w
    match r.1 with
    | .ok data => (some (.ok data), r.2)
    | .error err =>
      match errResponseStatus err with
      | .error thrown => (some (.error thrown), r.2)
      | .ok status =>
        if status = 403 then
          let l := UnifiLED._login rt ctl r.2
          if l.1 then UnifiLED.getGroups rt ctl fuel l.2
          else (some (.ok .undefined), l.2)
        else (some (.ok .undefined), r.2)

/-- Method `setDeviceOutput`, lines 132-165.  A `TypeError` thrown by the `then`
handler (the read of the field on a `null` body, a `==` that cannot convert the
echoed value) reaches the `catch` handler, which throws again on
`err.response.status`. -/
def UnifiLED.setDeviceOutput {σ : Type} (rt : JsRuntime) (ctl : Controller σ)
    (device : String) (state : Bool) : Nat → World σ → Run σ
  | 0, w => (none, w)
  | fuel + 1, w =>
    let requestOutput : ℚ := if state then 1 else 0
    let options : Request :=
      { url := w.client.baseUrl ++ "/v1/devices/" ++ device, method := "PUT",
        headers := some w.client.headers,
        data := some (.command "config-output" requestOutput) }
    let r := axios ctl options w
    let handled : Except JsErr JsVal :=
      match r.1 with
      | .ok data =>
        match getProp data "DeviceStatus.output" with
        | .ok echoed =>
          match looseEqNum rt echoed requestOutput with
          | some equal => .ok (.bool equal)
          | none => .error .typeError
        | .error thrown => .error thrown
      | .error err => .error err
    match handled with
    | .ok v => (some (.ok v), r.2)
    | .error err =>
      match errResponseStatus err with
      | .error thrown => (some (.error thrown), r.2)
      | .ok status =>
        if status = 403 then
          let l := UnifiLED._login rt ctl r.2
          if l.1 then UnifiLED.setDeviceOutput rt ctl device state fuel l.2
          else (some (.ok (.bool false)), l.2)
        else (some (.ok (.bool false)), r.2)

/-- Method `setGroupOutput`, lines 173-206. -/
def UnifiLED.setGroupOutput {σ : Type} (rt : JsRuntime) (ctl : Controller σ)
    (group : String) (state : Bool) : Nat → World σ → Run σ
  | 0, w => (none, w)
  | fuel + 1, w =>
    let requestOutput : ℚ := if state then 1 else 0
    let options : Request :=
      { url := w.client.baseUrl ++ "/v1/group/" ++ group, method := "PUT",
        headers := some w.client.headers,
        data := some (.command "config-output" requestOutput) }
    let r := axios ctl options w
    let handled : Except JsErr JsVal :=
      match r.1 with
      | .ok data =>
        match getProp data "result" with
        | .ok result =>
          match looseEqStr rt result "success" with
          | some equal => .ok (.bool equal)
          | none => .error .typeError
        | .error thrown => .error thrown
      | .error err => .error err
    match handled with
    | .ok v => (some (.ok v), r.2)
    | .error err =>
      match errResponseStatus err with
      | .error thrown => (some (.error thrown), r.2)
      | .ok status =>
        if status = 403 then
          let l := UnifiLED._login rt ctl r.2
          if l.1 then UnifiLED.setGroupOutput rt ctl group state fuel l.2
          else (some (.ok (.bool false)), l.2)
        else (some (.ok (.bool false)), r.2)

/-- Method `setDeviceBrightness`, lines 214-246. -/
def UnifiLED.setDeviceBrightness {σ : Type} (rt : JsRuntime) (ctl : Controller σ)
    (device : String) (brightness : ℚ) : Nat → World σ → Run σ
  | 0, w => (none, w)
  | fuel + 1, w =>
    let options : Request :=
      { url := w.client.baseUrl ++ "/v1/devices/" ++ device, method := "PUT",
        headers := some w.client.headers,
        data := some (.command "sync" brightness) }
    let r := axios ctl options w
    let handled : Except JsErr JsVal :=
      match r.1 with
      | .ok data =>
        match getProp data "DeviceStatus.led" with
        | .ok echoed =>
          match looseEqNum rt echoed brightness with
          | some equal => .ok (.bool equal)
          | none => .error .typeError
        | .error thrown => .error thrown
      | .error err => .error err
    match handled with
    | .ok v => (some (.ok v), r.2)
    | .error err =>
      match errResponseStatus err with
      | .error thrown => (some (.error thrown), r.2)
      | .ok status =>
        if status = 403 then
          let l := UnifiLED._login rt ctl r.2
          if l.1 then UnifiLED.setDeviceBrightness rt ctl device brightness fuel l.2
          else (some (.ok (.bool false)), l.2)
        else (some (.ok (.bool false)), r.2)

/-! ## Group fan-out -/

/-- A member of `group.devices`. -/
structure DeviceRef where
  id : String
  deriving DecidableEq

/-- A group record as returned by `getGroups`. -/
structure Group where
  name : String
  devices : List DeviceRef
  deriving DecidableEq

/-- The Promise object returned by a call `setDeviceBrightness(device, brightness)`
that is not awaited: the call has been made, its outcome is not yet known. -/
structure PendingCall where
  device : String
  brightness : ℚ
  deriving DecidableEq

/-- Values held by `groupRet` / `deviceRet` in `setGroupBrightness`. -/
inductive RetVal where
  | bool (b : Bool)
  | promise (p : PendingCall)
  deriving DecidableEq

/-- JavaScript `ToBoolean`: every object, a Promise included, is truthy. -/
def RetVal.truthy : RetVal → Bool
  | .bool b => b
  | .promise _ => true

/-- Method `setGroupBrightness`, lines 255-264: a synchronous `forEach` that calls
`setDeviceBrightness` for each member without awaiting it.  The result is the
returned `groupRet` and the calls made, in the order they were made. -/
def UnifiLED.setGroupBrightness (group : Group) (brightness : ℚ) : RetVal × List PendingCall :=
  group.devices.foldl
    (fun acc device =>
      let call : PendingCall := { device := device.id, brightness := brightness }
      let deviceRet := RetVal.promise call
      (if !deviceRet.truthy then deviceRet else acc.1, acc.2 ++ [call]))
    (RetVal.bool true, [])

/-- The outcome of one pending call: `setDeviceBrightness` run on its arguments. -/
def PendingCall.settle {σ : Type} (rt : JsRuntime) (ctl : Controller σ) (fuel : Nat)
    (p : PendingCall) (w : World σ) : Run σ :=
  UnifiLED.setDeviceBrightness rt ctl p.device p.brightness fuel w

/-- The outcomes of a list of pending calls under the schedule in which each call
runs to its end before the next one starts.  The value `setGroupBrightness`
returns is computed before any of them settles and does not depend on it. -/
def settleAll {σ : Type} (rt : JsRuntime) (ctl : Controller σ) (fuel : Nat) :
    List PendingCall → World σ → List (Option (Except JsErr JsVal)) × World σ
  | [], w => ([], w)
  | p :: ps, w =>
    let r := p.settle rt ctl fuel w
    let rest := settleAll rt ctl fuel ps r.2
    (r.1 :: rest.1, rest.2)

/-! ## The five request operations, uniformly -/

/-- The public operations that issue a request. -/
inductive Operation where
  | getDevices
  | getGroups
  | setDeviceOutput (device : String) (state : Bool)
  | setGroupOutput (group : String) (state : Bool)
  | setDeviceBrightness (device : String) (brightness : ℚ)
  deriving DecidableEq

/-- Running an operation is calling the method of that name. -/
def Operation.run {σ : Type} (rt : JsRuntime) (ctl : Controller σ) :
    Operation → Nat → World σ → Run σ
  | .getDevices => UnifiLED.getDevices rt ctl
  | .getGroups => UnifiLED.getGroups rt ctl
  | .setDeviceOutput device state => UnifiLED.setDeviceOutput rt ctl device state
  | .setGroupOutput group state => UnifiLED.setGroupOutput rt ctl group state
  | .setDeviceBrightness device brightness => UnifiLED.setDeviceBrightness rt ctl device brightness

/-- Reads are `getDevices` and `getGroups`; the other three are commands. -/
def Operation.isCommand : Operation → Bool
  | .getDevices => false
  | .getGroups => false
  | _ => true

/-- The response field a device command compares with the value it requested
(lines 135 and 149, lines 224 and 230), and that value. -/
def Operation.expectedEcho : Operation → Option (String × ℚ)
  | .setDeviceOutput _ state => some ("DeviceStatus.output", if state then 1 else 0)
  | .setDeviceBrightness _ brightness => some ("DeviceStatus.led", brightness)
  | _ => none

/-- The options object the operation builds from the current client fields. -/
def Operation.options (c : UnifiLED) : Operation → Request
  | .getDevices =>
    { url := c.baseUrl ++ "/v1/devices", method := "GET", headers := some c.headers, data := none }
  | .getGroups =>
    { url := c.baseUrl ++ "/v1/groups", method := "GET", headers := some c.headers, data := none }
  | .setDeviceOutput device state =>
    { url := c.baseUrl ++ "/v1/devices/" ++ device, method := "PUT", headers := some c.headers,
      data := some (.command "config-output" (if state then 1 else 0)) }
  | .setGroupOutput group state =>
    { url := c.baseUrl ++ "/v1/group/" ++ group, method := "PUT", headers := some c.headers,
      data := some (.command "config-output" (if state then 1 else 0)) }
  | .setDeviceBrightness device brightness =>
    { url := c.baseUrl ++ "/v1/devices/" ++ device, method := "PUT", headers := some c.headers,
      data := some (.command "sync" brightness) }

/-- The result of a comparison made in a `then` handler: its boolean, or the
`TypeError` it throws. -/
def compared : Option Bool → Except JsErr JsVal
  | some equal => .ok (.bool equal)
  | none => .error .typeError

/-- The `then` handler of the operation, applied to `res.data`. -/
def Operation.onFulfilled (rt : JsRuntime) : Operation → JsVal → Except JsErr JsVal
  | .getDevices, data => .ok data
  | .getGroups, data => .ok data
  | .setDeviceOutput _ state, data =>
    (getProp data "DeviceStatus.output").bind
      (fun echoed => compared (looseEqNum rt echoed (if state then 1 else 0)))
  | .setGroupOutput _ _, data =>
    (getProp data "result").bind (fun result => compared (looseEqStr rt result "success"))
  | .setDeviceBrightness _ brightness, data =>
    (getProp data "DeviceStatus.led").bind
      (fun echoed => compared (looseEqNum rt echoed brightness))

/-- The value the `catch` handler returns when it does not replay: `undefined`
for reads, `false` for commands. -/
def Operation.noResult (op : Operation) : JsVal :=
  if op.isCommand then .bool false else .undefined

/-- The common shape of the five methods: one request, the `then` handler, and a
`catch` handler that logs in and replays on status 403. -/
def retrying {σ : Type} (rt : JsRuntime) (ctl : Controller σ) (op : Operation) :
    Nat → World σ → Run σ
  | 0, w => (none, w)
  | fuel + 1, w =>
    let r := axios ctl (op.options w.client) w
    match r.1.bind (op.onFulfilled rt) with
    | .ok v => (some (.ok v), r.2)
    | .error err =>
      match errResponseStatus err with
      | .error thrown => (some (.error thrown), r.2)
      | .ok status =>
        if status = 403 then
          if (UnifiLED._login rt ctl r.2).1 then retrying rt ctl op fuel (UnifiLED._login rt ctl r.2).2
          else (some (.ok op.noResult), (UnifiLED._login rt ctl r.2).2)
        else (some (.ok op.noResult), r.2)

/-! ## Reading traces -/

/-- Number of `_login` invocations in a trace. -/
def loginCalls (t : List Event) : Nat :=
  t.countP (fun e => decide (e = Event.login))

/-- The requests of a trace whose method, URL and body are those of `options`. -/
def issuesOf (options : Request) (t : List Event) : List Request :=
  t.filterMap (fun e =>
    match e with
    | .request r =>
      if r.method = options.method ∧ r.url = options.url ∧ r.data = options.data then some r
      else none
    | _ => none)

/-- The `Authorization` header after a run, read off the assignments in its trace. -/
def authorizationAfter (current : String) : List Event → String
  | [] => current
  | .setAuthorization value :: es => authorizationAfter value es
  | _ :: es => authorizationAfter current es

/-- Every request with headers in the trace carries the `Authorization` value
that was current when it was issued. -/
def requestsCarry (current : String) : List Event → Bool
  | [] => true
  | .setAuthorization value :: es => requestsCarry value es
  | .request options :: es =>
    (match options.headers with
      | some h => decide (h.authorization = current)
      | none => true) && requestsCarry current es
  | .login :: es => requestsCarry current es

/-! ## Concrete controllers and inputs -/

/-- A client as left by the constructor fields for address `10.0.0.2`. -/
def client0 : UnifiLED := UnifiLED.new "10.0.0.2" none "user" "password"

/-- A world around `client0` with an empty trace. -/
def world0 (σ : Type) (c0 : σ) : World σ := { client := client0, controller := c0, trace := [] }

/-- A controller that accepts every command and echoes the requested value,
except for device `B`, whose brightness it reports as 0. -/
def stuckB : Controller Unit := fun _ req =>
  match req.data with
  | some (.command _ value) =>
    if req.url = "https://10.0.0.2:20443/v1/devices/B" then
      (.response 200 (.obj [("DeviceStatus.led", .num 0)]), ())
    else
      (.response 200 (.obj [("DeviceStatus.output", .num value), ("DeviceStatus.led", .num value)]), ())
  | _ => (.response 200 (.obj [("access_token", .str "t")]), ())

/-- The group `[A, B, C]`. -/
def groupABC : Group := { name := "ABC", devices := [⟨"A"⟩, ⟨"B"⟩, ⟨"C"⟩] }

/-- A controller that cannot be reached: no request gets a response. -/
def offline : Controller Unit := fun _ _ => (.noResponse, ())

/-- A controller that accepts every login and answers every other request with
status 403. -/
def alwaysForbidden : Controller Unit := fun _ req =>
  if req.method = "POST" then (.response 200 (.obj [("access_token", .str "fresh")]), ())
  else (.response 403 .null, ())

/-- A group without members. -/
def emptyGroup : Group := { name := "none", devices := [] }

/-- A controller that answers every request with status 500. -/
def serverError : Controller Unit := fun _ _ => (.response 500 .null, ())

/-- A controller whose first answer is status 403 and which accepts everything
afterwards: a login gets a token, any other request an echo of its value together
with `result: 'success'`.  Its state is the number of requests answered. -/
def expiredOnce : Controller Nat := fun n req =>
  if n = 0 then (.response 403 .null, 1)
  else
    match req.data with
    | some (.credentials _ _) => (.response 200 (.obj [("access_token", .str "fresh")]), n + 1)
    | some (.command _ value) =>
      (.response 200
        (.obj [("DeviceStatus.output", .num value), ("DeviceStatus.led", .num value),
          ("result", .str "success")]), n + 1)
    | none => (.response 200 (.arr []), n + 1)

/-- Conversions that suffice for the sample runs below: `ToNumber` on decimal
integer numerals (any other string counts as not a number) and `ToString` on
integers. -/
def sampleRuntime : JsRuntime :=
  { stringToNumber := fun s => s.toInt?.map (fun i => (i : ℚ)),
    numberToString := fun q => toString q.num }

/-- A controller that accepts every command and reports the output as the
boolean `true`. -/
def echoesTrue : Controller Unit := fun _ _ =>
  (.response 200 (.obj [("DeviceStatus.output", .bool true)]), ())

/-- A controller that answers every request with status 200 and the body `null`. -/
def nullBody : Controller Unit := fun _ _ => (.response 200 .null, ())

/-- A controller that accepts every command and reports, as output and as
brightness, an object with the one member `toString: 0`. -/
def echoesObject : Controller Unit := fun _ _ =>
  (.response 200
    (.obj [("DeviceStatus.output", .obj [("toString", .num 0)]),
      ("DeviceStatus.led", .obj [("toString", .num 0)])]), ())

/-- A controller that answers every request with status 200 and an empty object. -/
def tokenless : Controller Unit := fun _ _ => (.response 200 (.obj []), ())

/-- A world whose client holds the token `old` from an earlier login. -/
def worldOld : World Unit :=
  { client := client0.withAuthorization "Bearer old", controller := (), trace := [] }

/-! ## Basic facts -/

theorem axios_trace {σ : Type} (ctl : Controller σ) (options : Request) (w : World σ) :
    (axios ctl options w).2 =
      { w with controller := (ctl w.controller options).2,
               trace := w.trace ++ [Event.request options] } := by
  unfold axios
  split
  · split <;> rfl
  · rfl

theorem run_eq_retrying {σ : Type} (rt : JsRuntime) (ctl : Controller σ) (op : Operation)
    (fuel : Nat) (w : World σ) : op.run rt ctl fuel w = retrying rt ctl op fuel w := by
  induction fuel generalizing w with
  | zero => cases op <;> rfl
  | succ n ih =>
    cases op with
    | getDevices =>
      have ih1 := fun w1 => ih w1
      simp only [Operation.run] at ih1 ⊢
      unfold UnifiLED.getDevices retrying
      simp only [Operation.options, Operation.noResult, Operation.isCommand]
      cases (axios ctl _ w).1 with
      | ok data => simp [Except.bind, Operation.onFulfilled]
      | error err =>
        simp only [Except.bind]
        cases errResponseStatus err with
        | error thrown => simp
        | ok status =>
          by_cases h403 : status = 403
          · simp [h403, ih1]
          · simp [h403]
    | getGroups =>
      have ih1 := fun w1 => ih w1
      simp only [Operation.run] at ih1 ⊢
      unfold UnifiLED.getGroups retrying
      simp only [Operation.options, Operation.noResult, Operation.isCommand]
      cases (axios ctl _ w).1 with
      | ok data => simp [Except.bind, Operation.onFulfilled]
      | error err =>
        simp only [Except.bind]
        cases errResponseStatus err with
        | error thrown => simp
        | ok status =>
          by_cases h403 : status = 403
          · simp [h403, ih1]
          · simp [h403]
    | setDeviceOutput device state =>
      have ih1 := fun w1 => ih w1
      simp only [Operation.run] at ih1 ⊢
      unfold UnifiLED.setDeviceOutput retrying
      simp only [Operation.options, Operation.noResult, Operation.isCommand]
      cases (axios ctl _ w).1 with
      | ok data =>
        simp only [Except.bind, Operation.onFulfilled]
        cases getProp data "DeviceStatus.output" with
        | ok echoed =>
          simp only [Except.bind]
          split <;> simp_all [compared, errResponseStatus]
        | error thrown =>
          simp only [Except.bind]
          cases errResponseStatus thrown with
          | error thrown2 => simp
          | ok status =>
            by_cases h403 : status = 403
            · simp [h403, ih1]
            · simp [h403]
      | error err =>
        simp only [Except.bind]
        cases errResponseStatus err with
        | error thrown => simp
        | ok status =>
          by_cases h403 : status = 403
          · simp [h403, ih1]
          · simp [h403]
    | setGroupOutput group state =>
      have ih1 := fun w1 => ih w1
      simp only [Operation.run] at ih1 ⊢
      unfold UnifiLED.setGroupOutput retrying
      simp only [Operation.options, Operation.noResult, Operation.isCommand]
      cases (axios ctl _ w).1 with
      | ok data =>
        simp only [Except.bind, Operation.onFulfilled]
        cases getProp data "result" with
        | ok echoed =>
          simp only [Except.bind]
          split <;> simp_all [compared, errResponseStatus]
        | error thrown =>
          simp only [Except.bind]
          cases errResponseStatus thrown with
          | error thrown2 => simp
          | ok status =>
            by_cases h403 : status = 403
            · simp [h403, ih1]
            · simp [h403]
      | error err =>
        simp only [Except.bind]
        cases errResponseStatus err with
        | error thrown => simp
        | ok status =>
          by_cases h403 : status = 403
          · simp [h403, ih1]
          · simp [h403]
    | setDeviceBrightness device brightness =>
      have ih1 := fun w1 => ih w1
      simp only [Operation.run] at ih1 ⊢
      unfold UnifiLED.setDeviceBrightness retrying
      simp only [Operation.options, Operation.noResult, Operation.isCommand]
      cases (axios ctl _ w).1 with
      | ok data =>
        simp only [Except.bind, Operation.onFulfilled]
        cases getProp data "DeviceStatus.led" with
        | ok echoed =>
          simp only [Except.bind]
          split <;> simp_all [compared, errResponseStatus]
        | error thrown =>
          simp only [Except.bind]
          cases errResponseStatus thrown with
          | error thrown2 => simp
          | ok status =>
            by_cases h403 : status = 403
            · simp [h403, ih1]
            · simp [h403]
      | error err =>
        simp only [Except.bind]
        cases errResponseStatus err with
        | error thrown => simp
        | ok status =>
          by_cases h403 : status = 403
          · simp [h403, ih1]
          · simp [h403]

theorem axios_fulfilled {σ : Type} (ctl : Controller σ) (options : Request) (w : World σ)
    (status : Nat) (data : JsVal) (c : σ)
    (h : ctl w.controller options = (.response status data, c))
    (h2xx : 200 ≤ status ∧ status < 300) :
    axios ctl options w =
      (.ok data, { w with controller := c, trace := w.trace ++ [Event.request options] }) := by
  unfold axios
  rw [h]
  simp [h2xx]

theorem axios_rejected_status {σ : Type} (ctl : Controller σ) (options : Request) (w : World σ)
    (status : Nat) (data : JsVal) (c : σ)
    (h : ctl w.controller options = (.response status data, c))
    (h2xx : ¬ (200 ≤ status ∧ status < 300)) :
    axios ctl options w =
      (.error (.axios (some status)),
        { w with controller := c, trace := w.trace ++ [Event.request options] }) := by
  unfold axios
  rw [h]
  simp only [h2xx, if_false]

theorem axios_rejected_noResponse {σ : Type} (ctl : Controller σ) (options : Request)
    (w : World σ) (c : σ) (h : ctl w.controller options = (.noResponse, c)) :
    axios ctl options w =
      (.error (.axios none),
        { w with controller := c, trace := w.trace ++ [Event.request options] }) := by
  unfold axios
  rw [h]

theorem retrying_succ {σ : Type} (rt : JsRuntime) (ctl : Controller σ) (op : Operation)
    (fuel : Nat) (w : World σ) :
    retrying rt ctl op (fuel + 1) w =
      match (axios ctl (op.options w.client) w).1.bind (op.onFulfilled rt) with
      | .ok v => (some (.ok v), (axios ctl (op.options w.client) w).2)
      | .error err =>
        match errResponseStatus err with
        | .error thrown => (some (.error thrown), (axios ctl (op.options w.client) w).2)
        | .ok status =>
          if status = 403 then
            if (UnifiLED._login rt ctl (axios ctl (op.options w.client) w).2).1 then
              retrying rt ctl op fuel (UnifiLED._login rt ctl (axios ctl (op.options w.client) w).2).2
            else
              (some (.ok op.noResult),
                (UnifiLED._login rt ctl (axios ctl (op.options w.client) w).2).2)
          else (some (.ok op.noResult), (axios ctl (op.options w.client) w).2) := by
  rfl

theorem login_accepted {σ : Type} (rt : JsRuntime) (ctl : Controller σ) (w : World σ)
    (status : Nat) (data token : JsVal) (text : String) (c : σ)
    (h : ctl w.controller (loginOptions w.client) = (.response status data, c))
    (h2xx : 200 ≤ status ∧ status < 300)
    (htoken : getProp data "access_token" = .ok token)
    (htext : toStr rt token = some text) :
    UnifiLED._login rt ctl w =
      (true,
        { client := w.client.withAuthorization ("Bearer " ++ text),
          controller := c,
          trace := w.trace ++ [Event.login, Event.request (loginOptions w.client),
            Event.setAuthorization ("Bearer " ++ text)] }) := by
  unfold UnifiLED._login
  have hax := axios_fulfilled ctl (loginOptions w.client)
    { w with trace := w.trace ++ [Event.login] } status data c h h2xx
  simp only [hax, htoken, htext]
  simp

theorem login_failed {σ : Type} (rt : JsRuntime) (ctl : Controller σ) (w : World σ)
    (hfail : ∀ status data token,
      (ctl w.controller (loginOptions w.client)).1 = .response status data →
      (200 ≤ status ∧ status < 300) → getProp data "access_token" = .ok token →
      toStr rt token = none) :
    UnifiLED._login rt ctl w =
      (false,
        { w with controller := (ctl w.controller (loginOptions w.client)).2,
                 trace := w.trace ++ [Event.login, Event.request (loginOptions w.client)] }) := by
  unfold UnifiLED._login
  cases hout : ctl w.controller (loginOptions w.client) with
  | mk out c =>
    cases out with
    | noResponse =>
      have hax := axios_rejected_noResponse ctl (loginOptions w.client)
        { w with trace := w.trace ++ [Event.login] } c hout
      simp [hax]
    | response status data =>
      by_cases h2xx : 200 ≤ status ∧ status < 300
      · have hax := axios_fulfilled ctl (loginOptions w.client)
          { w with trace := w.trace ++ [Event.login] } status data c hout h2xx
        cases hp : getProp data "access_token" with
        | ok token =>
          have ht := hfail status data token (by rw [hout]) h2xx hp
          simp [hax, hp, ht]
        | error e => simp [hax, hp]
      · have hax := axios_rejected_status ctl (loginOptions w.client)
          { w with trace := w.trace ++ [Event.login] } status data c hout h2xx
        simp [hax]

/-- An object converts to a string exactly when it has no own member `toString`. -/
theorem toStr_obj (rt : JsRuntime) (props : List (String × JsVal)) :
    toStr rt (.obj props)
      = if (props.lookup "toString").isSome then none else some "[object Object]" := by
  simp [toStr]

/-- A login whose token does not convert to a string fails and keeps the client:
the `then` handler throws before the header is assigned. -/
theorem login_unconvertible_token {σ : Type} (rt : JsRuntime) (ctl : Controller σ)
    (w : World σ) (status : Nat) (data token : JsVal) (c : σ)
    (h : ctl w.controller (loginOptions w.client) = (.response status data, c))
    (htoken : getProp data "access_token" = .ok token)
    (htext : toStr rt token = none) :
    (UnifiLED._login rt ctl w).1 = false ∧ (UnifiLED._login rt ctl w).2.client = w.client := by
  have hl := login_failed rt ctl w (fun status2 data2 token2 hout _ htoken2 => by
    rw [h] at hout
    simp only [HttpOutcome.response.injEq] at hout
    rw [← hout.2, htoken] at htoken2
    simp only [Except.ok.injEq] at htoken2
    rw [← htoken2]
    exact htext)
  rw [hl]
  exact ⟨rfl, rfl⟩

theorem getProp_error (data : JsVal) (key : String) (e : JsErr)
    (h : getProp data key = .error e) : e = .typeError := by
  cases data <;> simp [getProp] at h <;> exact h.symm

/-- Either `_login` fails and only the trace and the controller move, or it
succeeds and assigns the header. -/
theorem login_cases {σ : Type} (rt : JsRuntime) (ctl : Controller σ) (w : World σ) :
    UnifiLED._login rt ctl w =
        (false,
          { w with controller := (ctl w.controller (loginOptions w.client)).2,
                   trace := w.trace ++ [Event.login, Event.request (loginOptions w.client)] })
      ∨ ∃ value,
        UnifiLED._login rt ctl w =
          (true,
            { client := w.client.withAuthorization value,
              controller := (ctl w.controller (loginOptions w.client)).2,
              trace := w.trace ++ [Event.login, Event.request (loginOptions w.client),
                Event.setAuthorization value] }) := by
  by_cases hacc : ∃ status data token text,
      (ctl w.controller (loginOptions w.client)).1 = .response status data
        ∧ (200 ≤ status ∧ status < 300) ∧ getProp data "access_token" = .ok token
        ∧ toStr rt token = some text
  · obtain ⟨status, data, token, text, hout, h2xx, htoken, htext⟩ := hacc
    right
    refine ⟨"Bearer " ++ text, ?_⟩
    exact login_accepted rt ctl w status data token text _ (by rw [← hout]) h2xx htoken htext
  · left
    apply login_failed
    intro status data token hout h2xx htoken
    cases ht : toStr rt token with
    | none => rfl
    | some text => exact absurd ⟨status, data, token, text, hout, h2xx, htoken, ht⟩ hacc

theorem options_headers (c : UnifiLED) (op : Operation) :
    (op.options c).headers = some c.headers := by
  cases op <;> rfl

theorem options_method_ne_post (c : UnifiLED) (op : Operation) :
    (op.options c).method ≠ "POST" := by
  cases op <;> simp [Operation.options]

theorem options_withAuthorization (c : UnifiLED) (value : String) (op : Operation) :
    (op.options (c.withAuthorization value)).method = (op.options c).method
      ∧ (op.options (c.withAuthorization value)).url = (op.options c).url
      ∧ (op.options (c.withAuthorization value)).data = (op.options c).data := by
  cases op <;> exact ⟨rfl, rfl, rfl⟩

theorem compared_error (r : Option Bool) (e : JsErr) (h : compared r = .error e) :
    e = .typeError := by
  cases r with
  | none =>
    simp only [compared, Except.error.injEq] at h
    exact h.symm
  | some equal => simp [compared] at h

theorem bind_compared_error (p : Except JsErr JsVal) (f : JsVal → Option Bool) (e : JsErr)
    (hp : ∀ e2, p = .error e2 → e2 = .typeError)
    (h : p.bind (fun v => compared (f v)) = .error e) : e = .typeError := by
  cases p with
  | ok v => exact compared_error (f v) e h
  | error e2 =>
    simp only [Except.bind, Except.error.injEq] at h
    rw [← h]
    exact hp e2 rfl

theorem onFulfilled_error (rt : JsRuntime) (op : Operation) (data : JsVal) (e : JsErr)
    (h : op.onFulfilled rt data = .error e) : e = .typeError := by
  cases op with
  | getDevices => simp [Operation.onFulfilled] at h
  | getGroups => simp [Operation.onFulfilled] at h
  | setDeviceOutput device state =>
    exact bind_compared_error _ _ e (fun e2 h2 => getProp_error _ _ e2 h2) h
  | setGroupOutput group state =>
    exact bind_compared_error _ _ e (fun e2 h2 => getProp_error _ _ e2 h2) h
  | setDeviceBrightness device brightness =>
    exact bind_compared_error _ _ e (fun e2 h2 => getProp_error _ _ e2 h2) h

/-- A fulfilled request settles the operation with what its `then` handler gives. -/
theorem retrying_fulfilled {σ : Type} (rt : JsRuntime) (ctl : Controller σ) (op : Operation)
    (fuel : Nat) (w : World σ) (status : Nat) (data : JsVal) (c : σ)
    (h : ctl w.controller (op.options w.client) = (.response status data, c))
    (h2xx : 200 ≤ status ∧ status < 300) :
    retrying rt ctl op (fuel + 1) w =
      (some (op.onFulfilled rt data),
        { w with controller := c,
                 trace := w.trace ++ [Event.request (op.options w.client)] }) := by
  rw [retrying_succ, axios_fulfilled ctl _ w status data c h h2xx]
  simp only [Except.bind]
  cases hf : op.onFulfilled rt data with
  | ok v => rfl
  | error e =>
    rw [onFulfilled_error rt op data e hf]
    rfl

/-- A request answered with status 403 is followed by `_login`, and by the
operation itself when the login succeeds. -/
theorem retrying_forbidden {σ : Type} (rt : JsRuntime) (ctl : Controller σ) (op : Operation)
    (fuel : Nat) (w : World σ) (data : JsVal) (c : σ)
    (h : ctl w.controller (op.options w.client) = (.response 403 data, c)) :
    retrying rt ctl op (fuel + 1) w =
      if (UnifiLED._login rt ctl
          { w with controller := c,
                   trace := w.trace ++ [Event.request (op.options w.client)] }).1 then
        retrying rt ctl op fuel
          (UnifiLED._login rt ctl
            { w with controller := c,
                     trace := w.trace ++ [Event.request (op.options w.client)] }).2
      else
        (some (.ok op.noResult),
          (UnifiLED._login rt ctl
            { w with controller := c,
                     trace := w.trace ++ [Event.request (op.options w.client)] }).2) := by
  rw [retrying_succ, axios_rejected_status ctl _ w 403 data c h (by omega)]
  simp [Except.bind, errResponseStatus]

/-- The three ways one invocation can go: settle after its request, settle after
a failed login, or hand over to the replay after a successful login. -/
theorem retrying_succ_cases {σ : Type} (rt : JsRuntime) (ctl : Controller σ) (op : Operation)
    (fuel : Nat) (w : World σ) :
    (∃ r, retrying rt ctl op (fuel + 1) w = (some r, (axios ctl (op.options w.client) w).2))
      ∨ ((UnifiLED._login rt ctl (axios ctl (op.options w.client) w).2).1 = false
          ∧ retrying rt ctl op (fuel + 1) w =
            (some (.ok op.noResult),
              (UnifiLED._login rt ctl (axios ctl (op.options w.client) w).2).2))
      ∨ ((UnifiLED._login rt ctl (axios ctl (op.options w.client) w).2).1 = true
          ∧ retrying rt ctl op (fuel + 1) w =
            retrying rt ctl op fuel
              (UnifiLED._login rt ctl (axios ctl (op.options w.client) w).2).2) := by
  have hR := retrying_succ rt ctl op fuel w
  cases hb : (axios ctl (op.options w.client) w).1.bind (op.onFulfilled rt) with
  | ok v =>
    rw [hb] at hR
    exact Or.inl ⟨_, hR⟩
  | error err =>
    rw [hb] at hR
    cases he : errResponseStatus err with
    | error thrown =>
      simp only [he] at hR
      exact Or.inl ⟨_, hR⟩
    | ok status =>
      simp only [he] at hR
      by_cases h403 : status = 403
      · cases hl : (UnifiLED._login rt ctl (axios ctl (op.options w.client) w).2).1 with
        | false =>
          simp only [h403, hl, if_true, Bool.false_eq_true, if_false] at hR
          exact Or.inr (Or.inl ⟨rfl, hR⟩)
        | true =>
          simp only [h403, hl, if_true] at hR
          exact Or.inr (Or.inr ⟨rfl, hR⟩)
      · simp only [h403, if_false] at hR
        exact Or.inl ⟨_, hR⟩

theorem authorizationAfter_append (current : String) (a b : List Event) :
    authorizationAfter current (a ++ b) = authorizationAfter (authorizationAfter current a) b := by
  induction a generalizing current with
  | nil => rfl
  | cons e es ih => cases e <;> simp [authorizationAfter, ih]

theorem requestsCarry_append (current : String) (a b : List Event) :
    requestsCarry current (a ++ b)
      = (requestsCarry current a && requestsCarry (authorizationAfter current a) b) := by
  induction a generalizing current with
  | nil => simp [requestsCarry, authorizationAfter]
  | cons e es ih => cases e <;> simp [requestsCarry, authorizationAfter, ih, Bool.and_assoc]

theorem withAuthorization_withAuthorization (c : UnifiLED) (u v : String) :
    (c.withAuthorization u).withAuthorization v = c.withAuthorization v := rfl

/-- The header invariant of a run: the trace only grows, every request carries the
header current when it was issued, and the header at the end is the one of the
last assignment recorded (the initial one when there is none). -/
theorem retrying_header_invariant {σ : Type} (rt : JsRuntime) (ctl : Controller σ)
    (op : Operation) (fuel : Nat) (w : World σ) :
    ∃ evs, (retrying rt ctl op fuel w).2.trace = w.trace ++ evs
      ∧ requestsCarry w.client.headers.authorization evs = true
      ∧ (retrying rt ctl op fuel w).2.client
        = w.client.withAuthorization (authorizationAfter w.client.headers.authorization evs)
      ∧ (loginCalls evs = 0 → (retrying rt ctl op fuel w).2.client = w.client) := by
  induction fuel generalizing w with
  | zero => exact ⟨[], by simp [retrying], rfl, rfl, fun _ => rfl⟩
  | succ n ih =>
    have hreq : requestsCarry w.client.headers.authorization
        [Event.request (op.options w.client)] = true := by
      simp [requestsCarry, options_headers]
    rcases retrying_succ_cases rt ctl op n w with ⟨r, hr⟩ | ⟨_, hr⟩ | ⟨_, hr⟩
    · rw [hr, axios_trace]
      exact ⟨[Event.request (op.options w.client)], rfl, hreq, rfl, fun _ => rfl⟩
    · rw [hr, axios_trace]
      rcases login_cases rt ctl
        { w with controller := (ctl w.controller (op.options w.client)).2,
                 trace := w.trace ++ [Event.request (op.options w.client)] }
        with hl | ⟨value, hl⟩
      · rw [hl]
        refine ⟨[Event.request (op.options w.client), Event.login,
          Event.request (loginOptions w.client)], by simp, ?_, rfl, fun _ => rfl⟩
        simp [requestsCarry, options_headers, loginOptions]
      · rw [hl]
        refine ⟨[Event.request (op.options w.client), Event.login,
          Event.request (loginOptions w.client), Event.setAuthorization value], by simp, ?_, rfl,
          ?_⟩
        · simp [requestsCarry, options_headers, loginOptions]
        · intro h
          simp [loginCalls] at h
    · rw [hr, axios_trace]
      rcases login_cases rt ctl
        { w with controller := (ctl w.controller (op.options w.client)).2,
                 trace := w.trace ++ [Event.request (op.options w.client)] }
        with hl | ⟨value, hl⟩
      · rw [hl]
        obtain ⟨evs, htrace, hcarry, hclient, _⟩ := ih
          { w with controller := (ctl
                      (ctl w.controller (op.options w.client)).2 (loginOptions w.client)).2,
                   trace := (w.trace ++ [Event.request (op.options w.client)]) ++
                     [Event.login, Event.request (loginOptions w.client)] }
        refine ⟨[Event.request (op.options w.client), Event.login,
          Event.request (loginOptions w.client)] ++ evs, ?_, ?_, ?_, ?_⟩
        · rw [htrace]
          simp
        · rw [requestsCarry_append]
          simp only [Bool.and_eq_true]
          refine ⟨by simp [requestsCarry, options_headers, loginOptions], ?_⟩
          simpa [authorizationAfter] using hcarry
        · rw [hclient, authorizationAfter_append]
          rfl
        · intro h
          simp [loginCalls] at h
      · rw [hl]
        obtain ⟨evs, htrace, hcarry, hclient, _⟩ := ih
          { client := w.client.withAuthorization value,
            controller := (ctl
              (ctl w.controller (op.options w.client)).2 (loginOptions w.client)).2,
            trace := (w.trace ++ [Event.request (op.options w.client)]) ++
              [Event.login, Event.request (loginOptions w.client),
                Event.setAuthorization value] }
        refine ⟨[Event.request (op.options w.client), Event.login,
          Event.request (loginOptions w.client), Event.setAuthorization value] ++ evs,
          ?_, ?_, ?_, ?_⟩
        · rw [htrace]
          simp
        · rw [requestsCarry_append]
          simp only [Bool.and_eq_true]
          refine ⟨by simp [requestsCarry, options_headers, loginOptions], ?_⟩
          simpa [authorizationAfter, UnifiLED.withAuthorization] using hcarry
        · rw [hclient, authorizationAfter_append, withAuthorization_withAuthorization]
          rfl
        · intro h
          simp [loginCalls] at h

/-! ## Group fan-out -/

theorem setGroupBrightness_fold (brightness : ℚ) (devices : List DeviceRef)
    (started : List PendingCall) :
    devices.foldl
      (fun (acc : RetVal × List PendingCall) device =>
        let call : PendingCall := { device := device.id, brightness := brightness }
        let deviceRet := RetVal.promise call
        (if !deviceRet.truthy then deviceRet else acc.1, acc.2 ++ [call]))
      (RetVal.bool true, started)
    = (RetVal.bool true,
        started ++ devices.map (fun d => { device := d.id, brightness := brightness })) := by
  induction devices generalizing started with
  | nil => simp
  | cons d ds ih =>
    simp only [List.foldl_cons, RetVal.truthy, Bool.not_true, Bool.false_eq_true, if_false]
      at ih ⊢
    rw [ih]
    simp

/-- Whatever the group and the level, `setGroupBrightness` returns `true`. -/
theorem setGroupBrightness_returns_true (group : Group) (level : ℚ) :
    (UnifiLED.setGroupBrightness group level).1 = RetVal.bool true := by
  unfold UnifiLED.setGroupBrightness
  rw [setGroupBrightness_fold]

/-- C1 (failing input): for the group `[A, B, C]` at level 50, against a controller
that reports B at 0, the three calls made by `setGroupBrightness` settle to
`true`, `false`, `true`, and `setGroupBrightness` has returned `true`. -/
theorem setGroupBrightness_ignores_failed_call (rt : JsRuntime) :
    (settleAll rt stuckB 1 (UnifiLED.setGroupBrightness groupABC 50).2 (world0 Unit ())).1
        = [some (.ok (.bool true)), some (.ok (.bool false)), some (.ok (.bool true))]
      ∧ (UnifiLED.setGroupBrightness groupABC 50).1 = RetVal.bool true := by
  constructor
  · rfl
  · rfl

/-- C7: for every group and level, `setGroupBrightness` makes exactly one
`setDeviceBrightness` call per member, with arguments `(d.id, level)` in
membership order; the calls made do not depend on how any of them settles, and
each of them gets its outcome. -/
theorem setGroupBrightness_calls_each_member (group : Group) (level : ℚ) :
    (UnifiLED.setGroupBrightness group level).2
        = group.devices.map (fun d => { device := d.id, brightness := level })
      ∧ (UnifiLED.setGroupBrightness group level).2.length = group.devices.length
      ∧ ∀ {σ : Type} (rt : JsRuntime) (ctl : Controller σ) (fuel : Nat) (w : World σ),
          (settleAll rt ctl fuel (UnifiLED.setGroupBrightness group level).2 w).1.length
            = group.devices.length := by
  have hcalls : (UnifiLED.setGroupBrightness group level).2
      = group.devices.map (fun d => { device := d.id, brightness := level }) := by
    unfold UnifiLED.setGroupBrightness
    rw [setGroupBrightness_fold]
    simp
  refine ⟨hcalls, by rw [hcalls, List.length_map], ?_⟩
  intro σ rt ctl fuel w
  rw [hcalls]
  generalize group.devices = ds
  induction ds generalizing w with
  | nil => rfl
  | cons d ds ih => simp [settleAll, ih]

/-- C9: for every level and every group with an empty device list,
`setGroupBrightness` returns `true`, makes no call, and so leaves the world (the
trace of issued requests included) as it was. -/
theorem setGroupBrightness_empty (group : Group) (level : ℚ) (hempty : group.devices = []) :
    (UnifiLED.setGroupBrightness group level).1 = RetVal.bool true
      ∧ (UnifiLED.setGroupBrightness group level).2 = []
      ∧ ∀ {σ : Type} (rt : JsRuntime) (ctl : Controller σ) (fuel : Nat) (w : World σ),
          settleAll rt ctl fuel (UnifiLED.setGroupBrightness group level).2 w = ([], w) := by
  have h : UnifiLED.setGroupBrightness group level = (RetVal.bool true, []) := by
    unfold UnifiLED.setGroupBrightness
    rw [hempty]
    rfl
  refine ⟨by rw [h], by rw [h], ?_⟩
  intro σ rt ctl fuel w
  rw [h]
  rfl

/-- Witness for C9: the group without members at level 40. -/
theorem setGroupBrightness_empty_witness :
    emptyGroup.devices = []
      ∧ (UnifiLED.setGroupBrightness emptyGroup 40).1 = RetVal.bool true
      ∧ (UnifiLED.setGroupBrightness emptyGroup 40).2 = [] :=
  ⟨rfl, (setGroupBrightness_empty emptyGroup 40 rfl).1,
    (setGroupBrightness_empty emptyGroup 40 rfl).2.1⟩

/-! ## Failures other than status 403 -/

/-- C8: a command whose request is answered with an error status other than 403
returns `false` after that single request: the trace gains the request and nothing
else (no `_login`, no second request) and the client is unchanged. -/
theorem command_error_status_not_retried {σ : Type} (rt : JsRuntime) (ctl : Controller σ)
    (op : Operation) (fuel : Nat) (w : World σ) (status : Nat) (data : JsVal) (c : σ)
    (hcmd : op.isCommand = true)
    (hresp : ctl w.controller (op.options w.client) = (.response status data, c))
    (herr : ¬ (200 ≤ status ∧ status < 300)) (h403 : status ≠ 403) :
    op.run rt ctl (fuel + 1) w =
      (some (.ok (.bool false)),
        { w with controller := c,
                 trace := w.trace ++ [Event.request (op.options w.client)] }) := by
  rw [run_eq_retrying, retrying_succ, axios_rejected_status ctl _ w status data c hresp herr]
  simp [Except.bind, errResponseStatus, h403, Operation.noResult, hcmd]

/-- C4 (failing input): against a controller that cannot be reached, every
operation ends with a thrown `TypeError` after its one request: the promise is
rejected instead of resolving to `false` or `undefined`. -/
theorem network_failure_rejects (rt : JsRuntime) (op : Operation) (fuel : Nat)
    (w : World Unit) :
    op.run rt offline (fuel + 1) w =
      (some (.error .typeError),
        { w with trace := w.trace ++ [Event.request (op.options w.client)] }) := by
  rw [run_eq_retrying, retrying_succ,
    axios_rejected_noResponse offline _ w () rfl]
  simp [Except.bind, errResponseStatus]

/-! ## Status 403: login and replay -/

/-- C3: when the first attempt of an operation is answered with status 403, the
login is accepted (a 2xx answer whose `access_token` converts to the string `text`)
and the second attempt is answered successfully, the run is exactly: request,
`_login` (one call), replay.  The replay has the method, URL and body of the first
request, the operation's request is issued exactly twice, and the value returned
is the one the `then` handler gives for the replay's response, which is the result
of the replayed call itself. -/
theorem forbidden_then_replay {σ : Type} (rt : JsRuntime) (ctl : Controller σ)
    (op : Operation) (fuel : Nat) (w : World σ)
    (d1 : JsVal) (c1 : σ) (status : Nat) (data token : JsVal) (text : String) (c2 : σ)
    (status2 : Nat) (data2 : JsVal) (c3 : σ)
    (h1 : ctl w.controller (op.options w.client) = (.response 403 d1, c1))
    (h2 : ctl c1 (loginOptions w.client) = (.response status data, c2))
    (h2ok : 200 ≤ status ∧ status < 300)
    (htoken : getProp data "access_token" = .ok token)
    (htext : toStr rt token = some text)
    (h3 : ctl c2 (op.options (w.client.withAuthorization ("Bearer " ++ text)))
      = (.response status2 data2, c3))
    (h3ok : 200 ≤ status2 ∧ status2 < 300) :
    op.run rt ctl (fuel + 2) w =
        (some (op.onFulfilled rt data2),
          { client := w.client.withAuthorization ("Bearer " ++ text),
            controller := c3,
            trace := w.trace ++
              [Event.request (op.options w.client), Event.login,
                Event.request (loginOptions w.client),
                Event.setAuthorization ("Bearer " ++ text),
                Event.request
                  (op.options (w.client.withAuthorization ("Bearer " ++ text)))] })
      ∧ op.run rt ctl (fuel + 2) w =
        op.run rt ctl (fuel + 1)
          { client := w.client.withAuthorization ("Bearer " ++ text),
            controller := c2,
            trace := w.trace ++
              [Event.request (op.options w.client), Event.login,
                Event.request (loginOptions w.client),
                Event.setAuthorization ("Bearer " ++ text)] }
      ∧ loginCalls
          [Event.request (op.options w.client), Event.login,
            Event.request (loginOptions w.client),
            Event.setAuthorization ("Bearer " ++ text),
            Event.request
              (op.options (w.client.withAuthorization ("Bearer " ++ text)))] = 1
      ∧ issuesOf (op.options w.client)
          [Event.request (op.options w.client), Event.login,
            Event.request (loginOptions w.client),
            Event.setAuthorization ("Bearer " ++ text),
            Event.request
              (op.options (w.client.withAuthorization ("Bearer " ++ text)))]
          = [op.options w.client,
              op.options (w.client.withAuthorization ("Bearer " ++ text))]
      ∧ (op.options (w.client.withAuthorization ("Bearer " ++ text))).method
          = (op.options w.client).method
      ∧ (op.options (w.client.withAuthorization ("Bearer " ++ text))).url
          = (op.options w.client).url
      ∧ (op.options (w.client.withAuthorization ("Bearer " ++ text))).data
          = (op.options w.client).data := by
  have hlogin := login_accepted rt ctl
    { w with controller := c1, trace := w.trace ++ [Event.request (op.options w.client)] }
    status data token text c2 h2 h2ok htoken htext
  have hstep : op.run rt ctl (fuel + 2) w =
      op.run rt ctl (fuel + 1)
        { client := w.client.withAuthorization ("Bearer " ++ text),
          controller := c2,
          trace := w.trace ++
            [Event.request (op.options w.client), Event.login,
              Event.request (loginOptions w.client),
              Event.setAuthorization ("Bearer " ++ text)] } := by
    rw [run_eq_retrying, run_eq_retrying, retrying_forbidden rt ctl op (fuel + 1) w d1 c1 h1,
      hlogin]
    simp
  have hsame := options_withAuthorization w.client ("Bearer " ++ text) op
  refine ⟨?_, hstep, ?_, ?_, hsame⟩
  · rw [hstep, run_eq_retrying,
      retrying_fulfilled rt ctl op fuel _ status2 data2 c3 h3 h3ok]
    simp
  · simp [loginCalls]
  · have hne := options_method_ne_post w.client op
    simp only [issuesOf, List.filterMap_cons, List.filterMap_nil, hsame.1, hsame.2.1, hsame.2.2,
      and_self, if_true]
    have hl : ¬ ((loginOptions w.client).method = (op.options w.client).method
        ∧ (loginOptions w.client).url = (op.options w.client).url
        ∧ (loginOptions w.client).data = (op.options w.client).data) := by
      intro h
      exact hne h.1.symm
    simp [hl]

/-- When the request is answered with status 403 and the login then fails, the
call ends there: one request, one `_login`, no replay, and the result is `false`
for a command and `undefined` for a read. -/
theorem forbidden_login_failed_is_terminal {σ : Type} (rt : JsRuntime) (ctl : Controller σ)
    (op : Operation) (fuel : Nat) (w : World σ) (d1 : JsVal) (c1 : σ)
    (h1 : ctl w.controller (op.options w.client) = (.response 403 d1, c1))
    (hfail : ∀ status data token, (ctl c1 (loginOptions w.client)).1 = .response status data →
      (200 ≤ status ∧ status < 300) → getProp data "access_token" = .ok token →
      toStr rt token = none) :
    op.run rt ctl (fuel + 1) w =
      (some (.ok op.noResult),
        { w with controller := (ctl c1 (loginOptions w.client)).2,
                 trace := w.trace ++ [Event.request (op.options w.client), Event.login,
                   Event.request (loginOptions w.client)] }) := by
  rw [run_eq_retrying, retrying_forbidden rt ctl op fuel w d1 c1 h1,
    login_failed rt ctl
      { w with controller := c1, trace := w.trace ++ [Event.request (op.options w.client)] }
      hfail]
  simp

/-- C2 (failing input): against a controller that accepts every login and
answers every other request with status 403, no operation settles, whatever the
fuel: each invocation logs in again and replays, so `n` invocations have made `n`
calls of `_login`. -/
theorem forbidden_forever_never_settles (rt : JsRuntime) (op : Operation) (fuel : Nat)
    (w : World Unit) :
    (op.run rt alwaysForbidden fuel w).1 = none
      ∧ loginCalls (op.run rt alwaysForbidden fuel w).2.trace = loginCalls w.trace + fuel := by
  rw [run_eq_retrying]
  induction fuel generalizing w with
  | zero => exact ⟨rfl, rfl⟩
  | succ n ih =>
    have hne := options_method_ne_post w.client op
    have h1 : alwaysForbidden w.controller (op.options w.client) = (.response 403 .null, ()) := by
      simp [alwaysForbidden, hne]
    have hlogin := login_accepted rt alwaysForbidden
      { w with controller := (), trace := w.trace ++ [Event.request (op.options w.client)] }
      200 (.obj [("access_token", .str "fresh")]) (.str "fresh") "fresh" () rfl (by omega)
      rfl rfl
    rw [retrying_forbidden rt alwaysForbidden op n w .null () h1, hlogin]
    simp only [if_true]
    refine ⟨(ih _).1, ?_⟩
    rw [(ih _).2]
    simp [loginCalls, List.countP_append]
    omega

/-- Witness for C3: `setDeviceBrightness('A', 50)` against a controller whose first
answer is status 403. -/
theorem forbidden_then_replay_witness :
    (Operation.setDeviceBrightness "A" 50).run sampleRuntime expiredOnce 2 (world0 Nat 0) =
      (some (.ok (.bool true)),
        { client := client0.withAuthorization "Bearer fresh",
          controller := 3,
          trace :=
            [Event.request ((Operation.setDeviceBrightness "A" 50).options client0), Event.login,
              Event.request (loginOptions client0),
              Event.setAuthorization "Bearer fresh",
              Event.request ((Operation.setDeviceBrightness "A" 50).options
                (client0.withAuthorization "Bearer fresh"))] }) :=
  (forbidden_then_replay sampleRuntime expiredOnce (Operation.setDeviceBrightness "A" 50) 0
    (world0 Nat 0) .null 1 200 (.obj [("access_token", .str "fresh")]) (.str "fresh") "fresh"
    2 200
    (.obj [("DeviceStatus.output", .num 50), ("DeviceStatus.led", .num 50),
      ("result", .str "success")]) 3
    rfl rfl (by decide) rfl rfl rfl (by decide)).1

/-- Witness for C8: `setGroupOutput('g1', true)` against a controller answering
status 500. -/
theorem command_error_status_not_retried_witness :
    (Operation.setGroupOutput "g1" true).run sampleRuntime serverError 1 (world0 Unit ()) =
      (some (.ok (.bool false)),
        { client := client0, controller := (),
          trace := [Event.request ((Operation.setGroupOutput "g1" true).options client0)] }) :=
  command_error_status_not_retried sampleRuntime serverError (Operation.setGroupOutput "g1" true)
    0 (world0 Unit ()) 500 .null () rfl rfl (by decide) (by decide)

/-! ## Success of a device command -/

/-- C5 (as amended): for `setDeviceOutput` and `setDeviceBrightness` and a 2xx
response whose body is neither `null` nor `undefined`, whenever the loose equality
(`==`) of the echoed field with the requested value has a result, the operation
returns that result: a numeric echo gives `true` exactly when it is the requested
number, a boolean echo counts as 1 or 0, a string echo as the number it converts
to, and a missing or `null` field gives `false`. -/
theorem device_command_compares_echo {σ : Type} (rt : JsRuntime) (ctl : Controller σ)
    (op : Operation) (fuel : Nat) (w : World σ) (field : String) (requested : ℚ)
    (status : Nat) (data echoed : JsVal) (c : σ)
    (hop : op.expectedEcho = some (field, requested))
    (hresp : ctl w.controller (op.options w.client) = (.response status data, c))
    (h2xx : 200 ≤ status ∧ status < 300)
    (hecho : getProp data field = .ok echoed) :
    (∀ equal, looseEqNum rt echoed requested = some equal →
        (op.run rt ctl (fuel + 1) w).1 = some (.ok (.bool equal)))
      ∧ (∀ q, echoed = .num q →
          ((op.run rt ctl (fuel + 1) w).1 = some (.ok (.bool true)) ↔ q = requested))
      ∧ (∀ b, echoed = .bool b →
          ((op.run rt ctl (fuel + 1) w).1 = some (.ok (.bool true))
            ↔ (if b then (1 : ℚ) else 0) = requested))
      ∧ (∀ t, echoed = .str t →
          ((op.run rt ctl (fuel + 1) w).1 = some (.ok (.bool true))
            ↔ rt.stringToNumber t = some requested))
      ∧ (echoed = .undefined ∨ echoed = .null →
          (op.run rt ctl (fuel + 1) w).1 = some (.ok (.bool false))) := by
  have hrun : (op.run rt ctl (fuel + 1) w).1
      = some (compared (looseEqNum rt echoed requested)) := by
    rw [run_eq_retrying, retrying_fulfilled rt ctl op fuel w status data c hresp h2xx]
    cases op with
    | getDevices => simp [Operation.expectedEcho] at hop
    | getGroups => simp [Operation.expectedEcho] at hop
    | setGroupOutput group state => simp [Operation.expectedEcho] at hop
    | setDeviceOutput device state =>
      simp only [Operation.expectedEcho, Option.some.injEq, Prod.mk.injEq] at hop
      obtain ⟨hf, hr⟩ := hop
      subst hf
      subst hr
      simp [Operation.onFulfilled, hecho, Except.bind]
    | setDeviceBrightness device brightness =>
      simp only [Operation.expectedEcho, Option.some.injEq, Prod.mk.injEq] at hop
      obtain ⟨hf, hr⟩ := hop
      subst hf
      subst hr
      simp [Operation.onFulfilled, hecho, Except.bind]
  refine ⟨?_, ?_, ?_, ?_, ?_⟩
  · intro equal heq
    rw [hrun, heq]
    rfl
  · intro q hq
    rw [hrun, hq]
    simp [looseEqNum, compared]
  · intro b hb
    rw [hrun, hb]
    simp [looseEqNum, compared]
  · intro t ht
    rw [hrun, ht]
    simp [looseEqNum, compared]
  · intro h
    rw [hrun]
    rcases h with h | h <;> rw [h] <;> rfl

/-- Witness for C5 (as amended): `setDeviceOutput('A', true)` with the echo 1. -/
theorem device_command_compares_echo_witness :
    ((Operation.setDeviceOutput "A" true).run sampleRuntime stuckB 1 (world0 Unit ())).1
      = some (.ok (.bool true)) :=
  (device_command_compares_echo sampleRuntime stuckB (Operation.setDeviceOutput "A" true) 0
    (world0 Unit ()) "DeviceStatus.output" 1 200
    (.obj [("DeviceStatus.output", .num 1), ("DeviceStatus.led", .num 1)]) (.num 1) ()
    rfl rfl (by decide) rfl).1 true rfl

/-- C5 (counterexample): `setDeviceOutput('A', true)` returns `true` for a 2xx
response that echoes the boolean `true`, which is not the requested value 1; for a
2xx response with body `null` it returns neither `true` nor `false` but is rejected
with a `TypeError`; and so is `setDeviceBrightness('A', 50)` for a 2xx response
whose echoed field is an object with a member `toString`, which `==` cannot
convert. -/
theorem device_command_true_on_other_echo :
    (UnifiLED.setDeviceOutput sampleRuntime echoesTrue "A" true 1 (world0 Unit ())).1
        = some (.ok (.bool true))
      ∧ getProp (.obj [("DeviceStatus.output", .bool true)]) "DeviceStatus.output"
        = .ok (.bool true)
      ∧ JsVal.bool true ≠ JsVal.num 1
      ∧ (UnifiLED.setDeviceOutput sampleRuntime nullBody "A" true 1 (world0 Unit ())).1
        = some (.error .typeError)
      ∧ (UnifiLED.setDeviceBrightness sampleRuntime echoesObject "A" 50 1 (world0 Unit ())).1
        = some (.error .typeError) := by
  refine ⟨rfl, rfl, ?_, rfl, rfl⟩
  intro h
  cases h

/-! ## Login -/

/-- C6 (as amended): when the credential exchange ends in a network error, in a
non-2xx response, or in a 2xx response whose body is `null` or `undefined`,
`_login` returns `false` and leaves every client field, the `Authorization` header
included, as it was. -/
theorem login_failure_keeps_header {σ : Type} (rt : JsRuntime) (ctl : Controller σ)
    (w : World σ)
    (hfail : ∀ status data,
      (ctl w.controller (loginOptions w.client)).1 = .response status data →
      (200 ≤ status ∧ status < 300) → getProp data "access_token" = .error .typeError) :
    (UnifiLED._login rt ctl w).1 = false
      ∧ (UnifiLED._login rt ctl w).2.client = w.client
      ∧ (UnifiLED._login rt ctl w).2.client.headers.authorization
        = w.client.headers.authorization := by
  have hl := login_failed rt ctl w (fun status data token hout h2xx htoken => by
    rw [hfail status data hout h2xx] at htoken
    cases htoken)
  rw [hl]
  exact ⟨rfl, rfl, rfl⟩

/-- Witness for C6 (as amended): logins answered with status 500, with no
response, and with the body `null`, each with the header `'Bearer old'` stored. -/
theorem login_failure_keeps_header_witness :
    ((UnifiLED._login sampleRuntime serverError worldOld).1 = false
        ∧ (UnifiLED._login sampleRuntime serverError worldOld).2.client = worldOld.client
        ∧ (UnifiLED._login sampleRuntime serverError worldOld).2.client.headers.authorization
          = worldOld.client.headers.authorization)
      ∧ (UnifiLED._login sampleRuntime offline worldOld).1 = false
      ∧ (UnifiLED._login sampleRuntime nullBody worldOld).1 = false :=
  ⟨login_failure_keeps_header sampleRuntime serverError worldOld
      (fun status data hout h2xx => by
        have hs : status = 500 := by
          simp only [serverError, HttpOutcome.response.injEq] at hout
          exact hout.1.symm
        omega),
    (login_failure_keeps_header sampleRuntime offline worldOld
      (fun status data hout _ => by simp [offline] at hout)).1,
    (login_failure_keeps_header sampleRuntime nullBody worldOld
      (fun status data hout _ => by
        simp only [nullBody, HttpOutcome.response.injEq] at hout
        rw [← hout.2]
        rfl)).1⟩

/-- C6 (counterexample): with the header `'Bearer old'` stored, a login answered
with status 200 and an empty object, a body that contains no access token, returns
`true` and replaces the header by `'Bearer undefined'`. -/
theorem login_without_token_overwrites_header :
    worldOld.client.headers.authorization = "Bearer old"
      ∧ getProp (.obj []) "access_token" = .ok .undefined
      ∧ (UnifiLED._login sampleRuntime tokenless worldOld).1 = true
      ∧ (UnifiLED._login sampleRuntime tokenless worldOld).2.client.headers.authorization
        = "Bearer undefined" := by
  exact ⟨rfl, rfl, rfl, rfl⟩

/-- C10: the constructor fields hold the header `'Bearer '` (empty token), and it
stays so when the constructor's login fails; a login answered with a 2xx body
whose `access_token` is the string `t` returns `true` and sets the header to
`'Bearer '` followed by `t`, which is the header of the options every operation
builds from then on; and in every run of every operation each request carries the
header current when it was issued (the replay after a 403 carries the one just
assigned), the header at the end is that of the last assignment made by `_login`,
and a run without a `_login` call leaves the client as it was. -/
theorem authorization_header_follows_login {σ : Type} (rt : JsRuntime) (ctl : Controller σ)
    (w : World σ) :
    (∀ ip port username password,
        (UnifiLED.new ip port username password).headers.authorization = "Bearer "
          ∧ ((UnifiLED._login rt ctl
                { client := UnifiLED.new ip port username password,
                  controller := w.controller, trace := [] }).1 = false →
              (UnifiLED.construct rt ctl w.controller ip port username
                password).client.headers.authorization = "Bearer "))
      ∧ (∀ status data t,
          (ctl w.controller (loginOptions w.client)).1 = .response status data →
          (200 ≤ status ∧ status < 300) → getProp data "access_token" = .ok (.str t) →
          (UnifiLED._login rt ctl w).1 = true
            ∧ (UnifiLED._login rt ctl w).2.client.headers.authorization = "Bearer " ++ t
            ∧ ∀ op : Operation,
                (op.options (UnifiLED._login rt ctl w).2.client).headers.map
                  (fun h => h.authorization) = some ("Bearer " ++ t))
      ∧ (∀ (op : Operation) (fuel : Nat),
          ∃ evs, (op.run rt ctl fuel w).2.trace = w.trace ++ evs
            ∧ requestsCarry w.client.headers.authorization evs = true
            ∧ (op.run rt ctl fuel w).2.client
              = w.client.withAuthorization
                  (authorizationAfter w.client.headers.authorization evs)
            ∧ (loginCalls evs = 0 → (op.run rt ctl fuel w).2.client = w.client)) := by
  refine ⟨?_, ?_, ?_⟩
  · intro ip port username password
    refine ⟨rfl, ?_⟩
    intro hfalse
    unfold UnifiLED.construct
    rcases login_cases rt ctl
      { client := UnifiLED.new ip port username password, controller := w.controller,
        trace := [] } with hl | ⟨value, hl⟩
    · rw [hl]
      rfl
    · rw [hl] at hfalse
      simp at hfalse
  · intro status data t hout h2xx htoken
    rw [login_accepted rt ctl w status data (.str t) t
      (ctl w.controller (loginOptions w.client)).2 (by rw [← hout]) h2xx htoken rfl]
    refine ⟨rfl, rfl, ?_⟩
    intro op
    rw [options_headers]
    rfl
  · intro op fuel
    rw [run_eq_retrying]
    exact retrying_header_invariant rt ctl op fuel w

/-- Witness for C10: a login answered with the token `fresh`. -/
theorem authorization_header_follows_login_witness :
    ((UnifiLED._login sampleRuntime alwaysForbidden (world0 Unit ())).1 = true
      ∧ (UnifiLED._login sampleRuntime alwaysForbidden
          (world0 Unit ())).2.client.headers.authorization = "Bearer " ++ "fresh"
      ∧ ∀ op : Operation,
          (op.options (UnifiLED._login sampleRuntime alwaysForbidden
            (world0 Unit ())).2.client).headers.map (fun h => h.authorization)
            = some ("Bearer " ++ "fresh"))
      ∧ (UnifiLED.construct sampleRuntime offline () "10.0.0.2" none "user"
          "password").client.headers.authorization = "Bearer " :=
  ⟨(authorization_header_follows_login sampleRuntime alwaysForbidden (world0 Unit ())).2.1
      200 (.obj [("access_token", .str "fresh")]) "fresh" rfl (by decide) rfl,
    ((authorization_header_follows_login sampleRuntime offline (world0 Unit ())).1
      "10.0.0.2" none "user" "password").2 rfl⟩

end UnifiLed
